import Mathlib

set_option maxRecDepth 100000

/-!
# Verification of the stockresearch repository's streaming-analysis core

Shallow embedding of the repository's Python sources:

* `FINAL_catch_trends_stream.py`, `stock_and_market_research.py`,
  `ResearchEngine/stock_and_market_research.py`, `stock_and_sector_research.py`:
  each defines a module-level `ANALYSES` list of dicts, a generator
  `perform_analysis(analysis_name, stock, sector, capfocus, risk_level)` and a
  helper `update_visibility(choice)`.  The function bodies are identical across
  the files; only the `ANALYSES` data differs, so the functions are embedded
  once, parameterised by the catalog, and each file's catalog is a separate
  definition (`FinalStream.ANALYSES`, `MarketResearch.ANALYSES`,
  `ResearchEngine.ANALYSES`, `SectorResearch.ANALYSES`).
* `UIpatternsfromimage.py`: `analyze_chart_with_openai`, `draw_annotations`,
  `process_image`.

Strings are embedded exactly as they occur in the source; braces, apostrophes
and backticks inside string literals are written with `\xNN` escapes, and
non-ASCII characters with `\uNNNN` escapes.
-/

/-- A Python dict `id` value: the catalogs mostly use string ids but a few
entries (e.g. `"id": 9` in `stock_and_sector_research.py`) use integers. -/
inductive PyId where
  | str (s : String)
  | int (n : Int)
deriving DecidableEq, Repr

/-- One entry of an `ANALYSES` list.  Every entry has `id`, `name` and
`prompt_template` keys.  `params`/`required_params` are `some _` exactly when
the dict literal contains that key (in `stock_and_sector_research.py` four
entries use the key `"required_params"` instead of `"params"`). -/
structure AnalysisDict where
  id : PyId
  name : String
  prompt_template : String
  params : Option (List String)
  required_params : Option (List String)
deriving DecidableEq, Repr

deriving instance DecidableEq for Except

/-- Python truthiness of the optional string inputs (`None` or `""` are falsy),
used by `if not xai_api_key`, `if stock else`, etc. -/
def pyTruthy : Option String → Bool
  | none => false
  | some s => !(s == "")

/-- Model of `str.upper` as a per-character map (agrees with Python on the
ASCII input this code receives). -/
def pyUpper (s : String) : String :=
  String.mk (s.data.map Char.toUpper)

/-- Model of `next((a for a in ANALYSES if a["name"] == analysis_name), None)`. -/
def lookupAnalysis (catalog : List AnalysisDict) (analysis_name : String) :
    Option AnalysisDict :=
  catalog.find? (fun a => a.name == analysis_name)

/-- The `format_params` dict built inside `perform_analysis`; it always has
exactly the four keys `stock`, `sector`, `capfocus`, `risk`. -/
structure FormatParams where
  stock : String
  sector : String
  capfocus : String
  risk : String
deriving DecidableEq, Repr

/-- Model of
```
format_params = {
    "stock": stock.upper() if stock else "N/A",
    "sector": sector if sector else "unspecified",
    "capfocus": capfocus if capfocus else "unspecified",
    "risk": risk_level if risk_level else "medium"
}
```
(`pyUpper` models `str.upper`). -/
def format_params (stock sector capfocus risk_level : Option String) : FormatParams :=
  { stock := if pyTruthy stock then pyUpper (stock.getD "") else "N/A"
    sector := if pyTruthy sector then sector.getD "" else "unspecified"
    capfocus := if pyTruthy capfocus then capfocus.getD "" else "unspecified"
    risk := if pyTruthy risk_level then risk_level.getD "" else "medium" }

/-- Key lookup in the `format_params` dict (`.format(**format_params)` passes
exactly these four keyword arguments). -/
def formatMapGet (m : FormatParams) : String → Option String
  | "stock" => some m.stock
  | "sector" => some m.sector
  | "capfocus" => some m.capfocus
  | "risk" => some m.risk
  | _ => none

/-- The exceptions Python's `str.format` can raise on the template shapes used
in this repository: `KeyError` for an unknown field name, `ValueError` for a
lone closing brace, and `ValueError` for a field that is never closed
(templates here use only plain `\x7bname\x7d` fields, so conversion/format-spec
syntax and positional fields need not be modelled). -/
inductive FormatError where
  | missingKey (k : String)
  | singleBrace
  | unterminatedField
deriving DecidableEq, Repr

/-- Rendering of `str(e)` for the exceptions of `FormatError`, as CPython prints them
(`str(KeyError(k))` is the repr of `k`). -/
def strOfFormatError : FormatError → String
  | .missingKey k => "\x27" ++ k ++ "\x27"
  | .singleBrace => "Single \x27\x7d\x27 encountered in format string"
  | .unterminatedField => "expected \x27\x7d\x27 before end of string"

def lbrace : Char := Char.ofNat 123

def rbrace : Char := Char.ofNat 125

/-- Parser mode while scanning a format string: literal text, just after an
opening brace, inside a replacement field with the (reversed) field name read
so far, or just after a closing brace. -/
inductive RMode where
  | normal
  | afterLbrace
  | field (acc : List Char)
  | afterRbrace

/-- Character-level model of Python `str.format` for templates whose
replacement fields are plain names: `\x7b\x7b`/`\x7d\x7d` are escapes, a field
is read up to its closing brace and substituted from the map, a lone closing
brace or an unterminated field raises a `ValueError` (the source's templates
use no conversion/format-spec syntax and no positional fields, so those are
not modelled). -/
def renderGo (m : FormatParams) (mode : RMode) : List Char → Except FormatError (List Char)
  | [] =>
    match mode with
    | .normal => .ok []
    | .afterLbrace => .error .unterminatedField
    | .field _ => .error .unterminatedField
    | .afterRbrace => .error .singleBrace
  | c :: cs =>
    match mode with
    | .normal =>
      if c = lbrace then renderGo m .afterLbrace cs
      else if c = rbrace then renderGo m .afterRbrace cs
      else (fun t => c :: t) <$> renderGo m .normal cs
    | .afterLbrace =>
      if c = lbrace then (fun t => lbrace :: t) <$> renderGo m .normal cs
      else if c = rbrace then
        match formatMapGet m "" with
        | some v => (fun t => v.data ++ t) <$> renderGo m .normal cs
        | none => .error (.missingKey "")
      else renderGo m (.field [c]) cs
    | .field acc =>
      if c = rbrace then
        match formatMapGet m (String.mk acc.reverse) with
        | some v => (fun t => v.data ++ t) <$> renderGo m .normal cs
        | none => .error (.missingKey (String.mk acc.reverse))
      else renderGo m (.field (c :: acc)) cs
    | .afterRbrace =>
      if c = rbrace then (fun t => rbrace :: t) <$> renderGo m .normal cs
      else .error .singleBrace

/-- Model of `selected["prompt_template"].format(**format_params)`. -/
def renderTemplate (m : FormatParams) (template : String) : Except FormatError String :=
  (fun t => String.mk t) <$> renderGo m .normal template.data

/-- The replacement-field names occurring in a format string, scanned with the
same traversal as `renderGo` (positions the renderer never reaches because it
raises first contribute nothing). -/
def fieldsGo (mode : RMode) : List Char → List String
  | [] => []
  | c :: cs =>
    match mode with
    | .normal =>
      if c = lbrace then fieldsGo .afterLbrace cs
      else if c = rbrace then fieldsGo .afterRbrace cs
      else fieldsGo .normal cs
    | .afterLbrace =>
      if c = lbrace then fieldsGo .normal cs
      else if c = rbrace then "" :: fieldsGo .normal cs
      else fieldsGo (.field [c]) cs
    | .field acc =>
      if c = rbrace then String.mk acc.reverse :: fieldsGo .normal cs
      else fieldsGo (.field (c :: acc)) cs
    | .afterRbrace =>
      if c = rbrace then fieldsGo .normal cs
      else []

/-- The placeholder names of a template string. -/
def templateFields (template : String) : List String :=
  fieldsGo .normal template.data

/-- One chunk of the streaming response (`chunk.content`; an empty string
models falsy content, which the loop skips). -/
structure Chunk where
  content : String
deriving DecidableEq, Repr

/-- What the external service does after the request is issued: the content
fragments it delivers, and — if the stream fails instead of completing —
`(str(e), traceback.format_exc())` of the exception raised after those
fragments. -/
structure StreamOutcome where
  chunks : List Chunk
  exn : Option (String × String)
deriving DecidableEq, Repr

/-- The accumulation loop
```
full_text = ""
for response, chunk in chat.stream():
    if chunk.content:
        full_text += chunk.content
        yield full_text
```
as the list of values it yields, starting from accumulator `acc`. -/
def snapshots (acc : String) : List Chunk → List String
  | [] => []
  | c :: cs =>
    if c.content = "" then snapshots acc cs
    else (acc ++ c.content) :: snapshots (acc ++ c.content) cs

/-- Model of `f"### ❌ Error\n{str(e)}\n\n\x60\x60\x60\n{traceback.format_exc()}\n\x60\x60\x60"`:
the single terminal message yielded by the `except` handler. -/
def errorYield (e tb : String) : String :=
  "### ❌ Error\n" ++ e ++ "\n\n\x60\x60\x60\n" ++ tb ++ "\n\x60\x60\x60"

/-- The message yielded when `XAI_API_KEY` is not configured. -/
def configErrorMsg : String :=
  "### ⚠️ Error\n\x60XAI_API_KEY\x60 not found in environment variables."

/-- The observable outcome of one `perform_analysis` invocation: the sequence
of yielded strings, and whether a streaming request to the external service
was issued (`chat.stream()` reached). -/
structure RunResult where
  yields : List String
  serviceCalled : Bool
deriving DecidableEq, Repr

/-- Model of `perform_analysis(analysis_name, stock, sector, capfocus, risk_level)`.
The function body is identical in `FINAL_catch_trends_stream.py`,
`stock_and_market_research.py`, `ResearchEngine/stock_and_market_research.py`
and `stock_and_sector_research.py`; each file closes over its own module-level
`ANALYSES` and `xai_api_key`, passed here as `catalog` and `xai_api_key`.
`stream` is the external service's behaviour, consumed only when the streaming
request is made, and `tb` is `traceback.format_exc()` for an exception raised
by `.format` (environment-dependent text). -/
def perform_analysis (catalog : List AnalysisDict) (xai_api_key : Option String)
    (analysis_name : String) (stock sector capfocus risk_level : Option String)
    (stream : StreamOutcome) (tb : String) : RunResult :=
  if pyTruthy xai_api_key = false then
    { yields := [configErrorMsg], serviceCalled := false }
  else
    match lookupAnalysis catalog analysis_name with
    | none => { yields := ["Invalid Selection."], serviceCalled := false }
    | some selected =>
      match renderTemplate (format_params stock sector capfocus risk_level)
          selected.prompt_template with
      | .error e =>
        { yields := [errorYield (strOfFormatError e) tb], serviceCalled := false }
      | .ok _prompt =>
        match stream.exn with
        | none => { yields := snapshots "" stream.chunks, serviceCalled := true }
        | some (e, etb) =>
          { yields := snapshots "" stream.chunks ++ [errorYield e etb]
            serviceCalled := true }

/-- Model of `update_visibility(choice)`:
```
selected = next((a for a in ANALYSES if a["name"] == choice), None)
params = selected["params"] if selected else []
return [gr.update(visible="stock" in params), ..., gr.update(visible="risk" in params)]
```
The result is the list of the four `visible` booleans; the subscript
`selected["params"]` raises `KeyError` when the matching dict has no
`"params"` key. -/
def update_visibility (catalog : List AnalysisDict) (choice : String) :
    Except String (List Bool) :=
  match lookupAnalysis catalog choice with
  | some selected =>
    match selected.params with
    | some ps =>
      .ok [ps.contains "stock", ps.contains "sector",
           ps.contains "capfocus", ps.contains "risk"]
    | none => .error "KeyError: \x27params\x27"
  | none => .ok [[].contains "stock", [].contains "sector",
                 [].contains "capfocus", [].contains "risk"]
-- ===== generated catalog data (from the ANALYSES literals in src/) =====

namespace FinalStream

/-- The ANALYSES list defined at module level of the corresponding source file. -/
def ANALYSES : List AnalysisDict := [
  { id := .str "1",
    name := "Real-Time stock sentiment",
    prompt_template := "Search X (Twitter) for the latest discussions about \x7bstock\x7d and analyze the sentiment. Focus on actionable insights, not noise.",
    params := some ["stock"],
    required_params := none },
  { id := .str "2",
    name := "Analyze current discussions on X about emerging trends in sector",
    prompt_template := "Sector: \x7bsector\x7d Focus: \x7bcapfocus\x7d Identify trending stocks and catalysts.",
    params := some ["sector", "capfocus"],
    required_params := none },
  { id := .str "3",
    name := "Track Smart Money and Influencer Moves",
    prompt_template := "Search X for recent activity from notable investors regarding \x7bsector\x7d.",
    params := some ["sector"],
    required_params := none },
  { id := .str "4",
    name := "Identify Stocks with Viral Momentum",
    prompt_template := "Search X for stocks gaining viral momentum for market cap \x7bcapfocus\x7d.",
    params := some ["capfocus"],
    required_params := none },
  { id := .str "5",
    name := "Monitor Breaking News and Catalysts",
    prompt_template := "Search X for breaking news and catalysts related to \x7bstock\x7d in the last 24 hours.",
    params := some ["stock"],
    required_params := none },
  { id := .str "6",
    name := "Gauge Retail vs. Institutional Sentiment",
    prompt_template := "Analyze the difference between retail and institutional sentiment for \x7bstock\x7d based on X.",
    params := some ["stock"],
    required_params := none },
  { id := .str "7",
    name := "Detect Early Warning Signs and Red Flags",
    prompt_template := "Search X for red flags, concerns, or negative sentiment about \x7bstock\x7d.",
    params := some ["stock"],
    required_params := none },
  { id := .str "8",
    name := "Create a Real-Time Watchlist Strategy",
    prompt_template := "Help me build a system to monitor \x7bsector\x7d stocks for \x7bcapfocus\x7d with \x7brisk\x7d risk.",
    params := some ["capfocus", "sector", "risk"],
    required_params := none }
]

end FinalStream

namespace MarketResearch

/-- The ANALYSES list defined at module level of the corresponding source file. -/
def ANALYSES : List AnalysisDict := [
  { id := .str "1",
    name := "Real-Time Sentiment Pulse",
    prompt_template := "Analyze X discussions about \x7bstock\x7d from the last 24\u201348 hours.Classify sentiment (bullish / neutral / bearish) and explain why sentiment is shifting.",
    params := some ["stock"],
    required_params := none },
  { id := .str "2",
    name := "Sudden Attention Spike Detector",
    prompt_template := "Find stocks that saw a sudden spike in mentions on X in the last 12 hours, excluding major news outlets. Focus on organic chatter, not headlines.",
    params := some [],
    required_params := none },
  { id := .str "3",
    name := "Retail Before Institutions",
    prompt_template := "Identify stocks where retail traders are accumulating before any analyst upgrades or institutional reports.",
    params := some [],
    required_params := none },
  { id := .str "4",
    name := "Narrative Change Tracker",
    prompt_template := "Track how the narrative around \x7bstock\x7d has changed over the last 30 days.What are people saying now that they weren\u2019t saying before?",
    params := some ["stock"],
    required_params := none },
  { id := .str "5",
    name := "Influencer Accumulation Signal",
    prompt_template := "Detect when respected traders, operators, or domain experts start mentioning a stock repeatedly without hyping it.",
    params := some [],
    required_params := none },
  { id := .str "6",
    name := "Bear-to-Bull Flip Alert",
    prompt_template := "Find stocks where historically bearish accounts recently turned neutral or bullish.Highlight exact language changes.",
    params := some ["sector", "risk"],
    required_params := none },
  { id := .str "7",
    name := "Hidden Catalyst Discovery",
    prompt_template := "Scan X for subtle mentions of upcoming catalysts (contracts, regulation changes, pilots, partnerships) that are not in mainstream news.",
    params := some [],
    required_params := none },
  { id := .str "8",
    name := "Insider Language Pattern Scan",
    prompt_template := "Analyze posts from employees, ex-employees, or contractors casually referencing their companys momentum or workload.",
    params := some [],
    required_params := none },
  { id := .str "9",
    name := "Volume Without News",
    prompt_template := "Identify stocks with unusual trading volume today but no major news.Cross-check with X sentiment for possible early explanations.",
    params := some [],
    required_params := none },
  { id := .str "10",
    name := "Sector Rotation Early Signal",
    prompt_template := "Detect early chatter suggesting capital rotating into a specific sector before ETFs or analysts mention it.Rotations start on X, not Bloomberg.",
    params := some [],
    required_params := none },
  { id := .str "11",
    name := "Earnings Whisper Analysis",
    prompt_template := "Analyze pre-earnings discussions on X to extract \u2018whisper numbers\u2019 and expectations versus consensus.",
    params := some [],
    required_params := none },
  { id := .str "12",
    name := "Crowded Trade Exit Signal",
    prompt_template := "Find stocks where bullish sentiment is becoming repetitive, meme-like, or overly confident.",
    params := some ["sector", "risk"],
    required_params := none },
  { id := .str "13",
    name := "Small-Cap Smart Money Trail",
    prompt_template := "Identify small-cap stocks being discussed by hedge fund analysts, ex-bankers, or finance PhDs on X.",
    params := some [],
    required_params := none },
  { id := .str "14",
    name := "Fear Compression Scan",
    prompt_template := "Find stocks where fear-driven language is declining even though price hasn\u2019t moved yet.",
    params := some [],
    required_params := none },
  { id := .str "15",
    name := "Macro-to-Micro Translation",
    prompt_template := "Translate current macro events into specific stocks that might benefit before the connection becomes obvious.",
    params := some [],
    required_params := none },
  { id := .str "16",
    name := "Management Credibility Signal",
    prompt_template := "Analyze CEO or CFO posts for changes in tone, confidence, or specificity over time.",
    params := some [],
    required_params := none },
  { id := .str "17",
    name := "Early Meme Formation Detector",
    prompt_template := "Identify stocks transitioning from serious discussion to early meme language but still low market cap.",
    params := some [],
    required_params := none },
  { id := .str "18",
    name := "Regulatory Tailwind Radar",
    prompt_template := "Scan policy, legal, or regulatory discussions on X that could quietly favor specific companies.",
    params := some [],
    required_params := none },
  { id := .str "19",
    name := "Global Edge Finder",
    prompt_template := "Track non-US accounts discussing US stocks before US traders notice.",
    params := some [],
    required_params := none },
  { id := .str "20",
    name := "Future Price Path Simulation",
    prompt_template := "Based on current sentiment, narratives, and catalysts, simulate 3 possible price paths for \x7bstock\x7d\x7d over the next 3\u20136 months.",
    params := some ["stock"],
    required_params := none }
]

end MarketResearch

namespace ResearchEngine

/-- The ANALYSES list defined at module level of the corresponding source file. -/
def ANALYSES : List AnalysisDict := [
  { id := .str "1",
    name := "Real-Time stock sentiment",
    prompt_template := "Search X (Twitter) for the latest discussions about \x7bstock\x7d and analyze the sentiment. Focus on actionable insights, not noise.Based on what you find, provide: Overall sentiment (bullish/neutral/bearish) Key themes and narratives emerging Notable investors or analysts discussing it Any breaking news or catalysts mentioned Shift in sentiment compared to last week Retail vs. institutional sentiment indicators Hype level assessment (organic vs. pump) Momentum prediction: Building or fading?",
    params := some ["stock"],
    required_params := none },
  { id := .str "2",
    name := "Sudden Attention Spike Detector",
    prompt_template := "Find stocks that saw a sudden spike in mentions on X in the last 12 hours, excluding major news outlets. Focus on organic chatter, not headlines.",
    params := some [],
    required_params := none },
  { id := .str "3",
    name := "Retail Before Institutions",
    prompt_template := "Identify stocks where retail traders are accumulating before any analyst upgrades or institutional reports.",
    params := some [],
    required_params := none },
  { id := .str "4",
    name := "Narrative Change Tracker",
    prompt_template := "Track how the narrative around \x7bstock\x7d has changed over the last 30 days.What are people saying now that they weren\u2019t saying before?",
    params := some ["stock"],
    required_params := none },
  { id := .str "5",
    name := "Influencer Accumulation Signal",
    prompt_template := "Detect when respected traders, operators, or domain experts start mentioning a stock repeatedly without hyping it.",
    params := some [],
    required_params := none },
  { id := .str "6",
    name := "Bear-to-Bull Flip Alert",
    prompt_template := "Find stocks where historically bearish accounts recently turned neutral or bullish.Highlight exact language changes.",
    params := some ["sector", "risk"],
    required_params := none },
  { id := .str "7",
    name := "Hidden Catalyst Discovery",
    prompt_template := "Scan X for subtle mentions of upcoming catalysts (contracts, regulation changes, pilots, partnerships) that are not in mainstream news.",
    params := some [],
    required_params := none },
  { id := .str "8",
    name := "Insider Language Pattern Scan",
    prompt_template := "Analyze posts from employees, ex-employees, or contractors casually referencing their companys momentum or workload.",
    params := some [],
    required_params := none },
  { id := .str "9",
    name := "Volume Without News",
    prompt_template := "Identify stocks with unusual trading volume today but no major news.Cross-check with X sentiment for possible early explanations.",
    params := some [],
    required_params := none },
  { id := .str "10",
    name := "Sector Rotation Early Signal",
    prompt_template := "Detect early chatter suggesting capital rotating into a specific sector before ETFs or analysts mention it.Rotations start on X, not Bloomberg.",
    params := some [],
    required_params := none },
  { id := .str "11",
    name := "Earnings Whisper Analysis",
    prompt_template := "Analyze pre-earnings discussions on X to extract \u2018whisper numbers\u2019 and expectations versus consensus.",
    params := some [],
    required_params := none },
  { id := .str "12",
    name := "Crowded Trade Exit Signal",
    prompt_template := "Find stocks where bullish sentiment is becoming repetitive, meme-like, or overly confident.",
    params := some [],
    required_params := none },
  { id := .str "13",
    name := "Small-Cap Smart Money Trail",
    prompt_template := "Identify small-cap stocks being discussed by hedge fund analysts, ex-bankers, or finance PhDs on X.",
    params := some [],
    required_params := none },
  { id := .str "14",
    name := "Fear Compression Scan",
    prompt_template := "Find stocks where fear-driven language is declining even though price hasn\u2019t moved yet.",
    params := some [],
    required_params := none },
  { id := .str "15",
    name := "Macro-to-Micro Translation",
    prompt_template := "Translate current macro events into specific stocks that might benefit before the connection becomes obvious.",
    params := some [],
    required_params := none },
  { id := .str "16",
    name := "Management Credibility Signal",
    prompt_template := "Analyze CEO or CFO posts for changes in tone, confidence, or specificity over time.",
    params := some [],
    required_params := none },
  { id := .str "17",
    name := "Early Meme Formation Detector",
    prompt_template := "Identify stocks transitioning from serious discussion to early meme language but still low market cap.",
    params := some [],
    required_params := none },
  { id := .str "18",
    name := "Regulatory Tailwind Radar",
    prompt_template := "Scan policy, legal, or regulatory discussions on X that could quietly favor specific companies.",
    params := some [],
    required_params := none },
  { id := .str "19",
    name := "Global Edge Finder",
    prompt_template := "Track non-US accounts discussing US stocks before US traders notice.",
    params := some [],
    required_params := none },
  { id := .str "20",
    name := "Future Price Path Simulation",
    prompt_template := "Based on current sentiment, narratives, and catalysts, simulate 3 possible price paths for \x7bstock\x7d over the next 3\u20136 months.",
    params := some ["stock"],
    required_params := none },
  { id := .str "21",
    name := "Analyze current discussions on X about emerging trends in sector",
    prompt_template := "Analyze current discussions on X about emerging trends in \x7bsector\x7d. Sector: \x7bsector\x7d Focus: \x7bcapfocus\x7d Identify: 1. What trends are gaining traction right now 2. Stocks being mentioned repeatedly 3. New products, technologies, or catalysts 4. Sentiment shift patterns 5. Early-stage companies getting attention 6. Comparison to mainstream media coverage (are we early?) 7. Key opinion leaders driving the narrative 8. Stocks positioned to benefit most Show me what\x27s trending NOW, not last quarter.",
    params := some ["sector", "capfocus"],
    required_params := none },
  { id := .str "22",
    name := "Identify Stocks with Viral Momentum",
    prompt_template := "Search X for stocks that are gaining viral momentum right now. Focus: \x7bcapfocus\x7d Criteria: - Sudden spike in mentions - Increasing engagement on posts - Multiple accounts discussing simultaneously - Market cap: [your preference] For each stock gaining traction, analyze: 1. Why it\x27s trending (catalyst, news, hype?) 2. Quality of the narrative (substance vs. pump) 3. Who\x27s driving the conversation 4. Fundamental backing (does it deserve attention?) 5. Risk of being too late 6. Historical pattern (does viral = gains for this stock?) 7. Entry/exit strategy if momentum is real 8. Red flags suggesting pump and dump Separate real opportunities from noise.",
    params := some ["capfocus"],
    required_params := none },
  { id := .str "23",
    name := "Monitor Breaking News and Catalysts",
    prompt_template := "Search X for breaking news and catalysts related to \x7bstock\x7d in the last 24 hours.Focus on actionable insights, not noise.Based on what you find, provide: Overall sentiment (bullish/neutral/bearish) Key themes and narratives emerging Notable investors or analysts discussing it Any breaking news or catalysts mentioned Shift in sentiment compared to last week Retail vs. institutional sentiment indicators Hype level assessment (organic vs. pump) Momentum prediction: Building or fading?",
    params := some ["stock"],
    required_params := none },
  { id := .str "24",
    name := "Gauge Retail vs. Institutional Sentiment",
    prompt_template := "Analyze the difference between retail and institutional sentiment for \x7bstock\x7d based on X.",
    params := some ["stock"],
    required_params := none },
  { id := .str "25",
    name := "Detect Early Warning Signs and Red Flags",
    prompt_template := "Search X for red flags, concerns, or negative sentiment about \x7bstock\x7d.",
    params := some ["stock"],
    required_params := none },
  { id := .str "26",
    name := "Create a Real-Time Watchlist Strategy",
    prompt_template := "Help me build a system to monitor stocks on X for trading opportunities. My focus: day trading Sectors: \x7bsector\x7d Risk tolerance: \x7brisk\x7d Focus: \x7bcapfocus\x7d Create a framework for: 1. Which accounts and hashtags to monitor daily 2. Sentiment indicators that signal buy/sell 3. How to filter noise from actionable signals 4. Tools and search strategies for X 5. How to validate X sentiment with fundamentals 6. Entry and exit triggers based on momentum 7. Risk management when trading on sentiment 8. Daily routine to stay ahead of the market Make it systematic and repeatable.",
    params := some ["sector", "risk", "capfocus"],
    required_params := none },
  { id := .int 27,
    name := "Recent Activity by Sector",
    prompt_template := "Search X for recent activity from notable investors and analysts regarding \x7bsector\x7d Focus on: Prominent investors (e.g., [specific names if known]) Verified analysts and researchers Hedge fund managers with public presence Analyze: 1. What stocks they\x27re discussing or buying 2. Their thesis and reasoning 3. Timing of their posts (recent accumulation?) 4. Engagement and agreement from others 5. Contrarian vs. consensus views 6. Track record of their past calls 7. Any disclosed positions or conflicts 8. Should I follow this move? Why or why not? Help me follow smart money in real-time.",
    params := some ["sector"],
    required_params := none },
  { id := .int 28,
    name := "Why is this stock moving",
    prompt_template := "Analyze the main drivers behind \x7bstock\x7d\x27s price action since [specific time/date or \x27market open today\x27]. Focus especially on:Categorize and roughly weight the drivers as:Fundamental news / earnings surprise / guidance change (weight %)Analyst upgrades/downgrades / price target changesTechnical / momentum factorsMacro / interest rate / commodity / FX crossover effectsSentiment / flow / positioning (institutional, retail, options gamma)Idiosyncratic (M&A rumor, legal, product launch, etc.)End with your best judgment of whether the current move looks sustainable or likely to reverse in the short term, and why.",
    params := some ["stock"],
    required_params := none },
  { id := .str "29",
    name := "Generate a Real-Time Watchlist by Risk Level for Stocks Under $10",
    prompt_template := "Search X and use web search to create a real-time watchlist of stocks currently trading under $10 that are suitable for day trading or short-term momentum plays. Focus on low-priced stocks (under $10/share) with potential for volatility, volume spikes, or emerging buzz. Use up-to-date market information as of today. Prioritize stocks that show: - High relative volume or unusual volume surges - Recent price momentum (e.g., big % moves in the last 1 to 5 days) - Positive chatter, catalysts, or hype on X/Twitter, Reddit, or financial news Only include stocks where the key risk level matches the user\x27s risk tolerance: \x7brisk\x7d (e.g., if \x7brisk\x7d is \x27medium\x27, filter for medium-risk stocks only). Define risk levels as: Low (stable with low volatility), Medium (moderate volatility and some uncertainty), High (high volatility, speculative, or significant downside potential). For each stock in the watchlist (aim for 8 to 15 tickers that fit the risk filter), include: 1. Ticker symbol and company name 2. Current price (approximate, under $10) 3. Today\x27s % change and volume vs average 4. Why it\x27s on the watchlist (e.g., recent catalyst, X mentions, sector heat, technical breakout) 5. Key risk level (must match \x7brisk\x7d) 6. Suggested watch levels (e.g., breakout above X, support at Y) Structure the output as a clean markdown table or bulleted list for easy scanning. At the end, explain your screening criteria and any sources/tools you used to compile this real-time list. Remind that this is not financial advice \u2014 always do your own due diligence, use level 2/data, and manage risk tightly on sub-$10 names.",
    params := some ["risk"],
    required_params := none }
]

end ResearchEngine

namespace SectorResearch

/-- The ANALYSES list defined at module level of the corresponding source file. -/
def ANALYSES : List AnalysisDict := [
  { id := .str "1",
    name := "Real-Time stock sentiment",
    prompt_template := "Search X (Twitter) for the latest discussions about \x7bstock\x7d and analyze the sentiment. Focus on actionable insights, not noise.Based on what you find, provide: Overall sentiment (bullish/neutral/bearish) Key themes and narratives emerging Notable investors or analysts discussing it Any breaking news or catalysts mentioned Shift in sentiment compared to last week Retail vs. institutional sentiment indicators Hype level assessment (organic vs. pump) Momentum prediction: Building or fading?",
    params := some ["stock"],
    required_params := none },
  { id := .str "2",
    name := "Analyze current discussions on X about emerging trends in sector",
    prompt_template := "Analyze current discussions on X about emerging trends in \x7bsector\x7d. Sector: \x7bsector\x7d Focus: \x7bcapfocus\x7d Identify: 1. What trends are gaining traction right now 2. Stocks being mentioned repeatedly 3. New products, technologies, or catalysts 4. Sentiment shift patterns 5. Early-stage companies getting attention 6. Comparison to mainstream media coverage (are we early?) 7. Key opinion leaders driving the narrative 8. Stocks positioned to benefit most Show me what\x27s trending NOW, not last quarter.",
    params := none,
    required_params := some ["sector", "capfocus"] },
  { id := .str "3",
    name := "Track Smart Money and Influencer Moves",
    prompt_template := "Search X for recent activity from notable investors regarding \x7bsector\x7d.",
    params := some ["sector"],
    required_params := none },
  { id := .str "4",
    name := "Identify Stocks with Viral Momentum",
    prompt_template := "Search X for stocks that are gaining viral momentum right now. Criteria: - Sudden spike in mentions - Increasing engagement on posts - Multiple accounts discussing simultaneously - Market cap: [your preference] For each stock gaining traction, analyze: 1. Why it\x27s trending (catalyst, news, hype?) 2. Quality of the narrative (substance vs. pump) 3. Who\x27s driving the conversation 4. Fundamental backing (does it deserve attention?) 5. Risk of being too late 6. Historical pattern (does viral = gains for this stock?) 7. Entry/exit strategy if momentum is real 8. Red flags suggesting pump and dump Separate real opportunities from noise.",
    params := none,
    required_params := some [] },
  { id := .str "5",
    name := "Monitor Breaking News and Catalysts",
    prompt_template := "Search X for breaking news and catalysts related to \x7bstock\x7d in the last 24 hours.",
    params := some ["stock"],
    required_params := none },
  { id := .str "6",
    name := "Gauge Retail vs. Institutional Sentiment",
    prompt_template := "Analyze the difference between retail and institutional sentiment for \x7bstock\x7d based on X.",
    params := some ["stock"],
    required_params := none },
  { id := .str "7",
    name := "Detect Early Warning Signs and Red Flags",
    prompt_template := "Search X for red flags, concerns, or negative sentiment about \x7bstock\x7d.",
    params := some ["stock"],
    required_params := none },
  { id := .str "8",
    name := "Create a Real-Time Watchlist Strategy",
    prompt_template := "Help me build a system to monitor stocks on X for trading opportunities. My focus: day trading Sectors: \x7bsector\x7d Risk tolerance: \x7brisk\x7d Create a framework for: 1. Which accounts and hashtags to monitor daily 2. Sentiment indicators that signal buy/sell 3. How to filter noise from actionable signals 4. Tools and search strategies for X 5. How to validate X sentiment with fundamentals 6. Entry and exit triggers based on momentum 7. Risk management when trading on sentiment 8. Daily routine to stay ahead of the market Make it systematic and repeatable.",
    params := none,
    required_params := some ["sector", "risk"] },
  { id := .int 9,
    name := "Recent Activity by Sector",
    prompt_template := "Search X for recent activity from notable investors and analysts regarding \x7bsector\x7d Focus on: Prominent investors (e.g., [specific names if known]) Verified analysts and researchers Hedge fund managers with public presence Analyze: 1. What stocks they\x27re discussing or buying 2. Their thesis and reasoning 3. Timing of their posts (recent accumulation?) 4. Engagement and agreement from others 5. Contrarian vs. consensus views 6. Track record of their past calls 7. Any disclosed positions or conflicts 8. Should I follow this move? Why or why not? Help me follow smart money in real-time.",
    params := none,
    required_params := some ["sector"] }
]

end SectorResearch


/-! ## `UIpatternsfromimage.py` -/

/-- A parsed JSON document, the possible results of `json.loads`. -/
inductive Json where
  | null
  | bool (b : Bool)
  | num (q : Rat)
  | str (s : String)
  | arr (elems : List Json)
  | obj (fields : List (String × Json))

/-- Key lookup on a JSON object; `none` for a missing key or a non-object. -/
def Json.lookup? : Json → String → Option Json
  | .obj fields, k => (fields.find? (fun f => f.1 == k)).map (fun f => f.2)
  | _, _ => none

/-- Python `d[k]`: the value, or `KeyError` / `TypeError` like the subscript
operator. -/
def jsonItem (j : Json) (k : String) : Except String Json :=
  match j with
  | .obj fields =>
    match fields.find? (fun f => f.1 == k) with
    | some f => .ok f.2
    | none => .error ("KeyError: \x27" ++ k ++ "\x27")
  | _ => .error "TypeError: object is not subscriptable"

/-- Python `d.get(k, default)`; `.get` on a non-dict raises `AttributeError`. -/
def pyDictGet (j : Json) (k : String) (default : Json) : Except String Json :=
  match j with
  | .obj fields =>
    .ok (((fields.find? (fun f => f.1 == k)).map (fun f => f.2)).getD default)
  | _ => .error "AttributeError: object has no attribute \x27get\x27"

/-- A drawn trendline: `ax.plot([line["x1"], line["x2"]], [line["y1"], line["y2"]])`. -/
structure Segment where
  x1 : Rat
  y1 : Rat
  x2 : Rat
  y2 : Rat

/-- Coordinates handed to `ax.plot` must be numeric. -/
def asNum : Json → Except String Rat
  | .num q => .ok q
  | _ => .error "TypeError: coordinate is not a number"

/-- The segment drawn for one element of a pattern's `trendlines` list. -/
def segOfLine (line : Json) : Except String Segment := do
  let x1 ← jsonItem line "x1"
  let x2 ← jsonItem line "x2"
  let y1 ← jsonItem line "y1"
  let y2 ← jsonItem line "y2"
  let a ← asNum x1
  let b ← asNum x2
  let c ← asNum y1
  let d ← asNum y2
  pure { x1 := a, y1 := c, x2 := b, y2 := d }

/-- Model of `for line in pattern.get("trendlines", []): ax.plot(...)`. -/
def patternSegments (p : Json) : Except String (List Segment) := do
  let tl ← pyDictGet p "trendlines" (.arr [])
  match tl with
  | .arr lines => lines.mapM segOfLine
  | _ => .error "TypeError: trendlines value is not iterable"

/-- Model of `draw_annotations(image, analysis_json)`, as the list of segments drawn
over the image:
```
if "patterns" in analysis_json:
    for pattern in analysis_json["patterns"]:
        for line in pattern.get("trendlines", []):
            ax.plot([line["x1"], line["x2"]], [line["y1"], line["y2"]], linewidth=3)
```
(the `in` test is modelled for dict replies, the shape the claims quantify
over; a present `"patterns"` value must be a list to be iterated). -/
def draw_annotations (analysis_json : Json) : Except String (List Segment) :=
  match analysis_json.lookup? "patterns" with
  | some (.arr ps) => (ps.mapM patternSegments).map List.flatten
  | some _ => .error "TypeError: patterns value is not iterable"
  | none => .ok []

/-- Model of `analyze_chart_with_openai(image)`, which ends in
`return json.loads(response.choices[0].message.content)` with no exception
handling anywhere in the function.  `json_loads` abstracts Python's stdlib
JSON parser and `reply` is the vision service's message content. -/
def analyze_chart_with_openai (json_loads : String → Except String Json)
    (reply : String) : Except String Json :=
  json_loads reply

/-- Model of `process_image(image)`:
```
analysis = analyze_chart_with_openai(image)
annotated_image = draw_annotations(image, analysis)
explanation = analysis.get("analysis", "No analysis returned.")
return explanation, annotated_image
```
The annotated image is modelled as the original image paired with the drawn
segments. -/
def process_image {Img : Type} (json_loads : String → Except String Json)
    (reply : String) (image : Img) : Except String (Json × (Img × List Segment)) := do
  let analysis ← analyze_chart_with_openai json_loads reply
  let segs ← draw_annotations analysis
  let explanation ← pyDictGet analysis "analysis" (.str "No analysis returned.")
  pure (explanation, (image, segs))

/-! ## Properties -/

/-- Relation stating that `b` extends `a` by a non-empty suffix. -/
def growsBy (a b : String) : Prop := ∃ s, s ≠ "" ∧ b = a ++ s

theorem exceptMap_eq_error {ε α β : Type} (f : α → β) (x : Except ε α) (e : ε) :
    (f <$> x = Except.error e) ↔ x = Except.error e := by
  cases x <;> simp [Except.map, Functor.map]

theorem snapshots_chain (cs : List Chunk) (acc : String) :
    List.Chain' growsBy (acc :: snapshots acc cs) := by
  induction cs generalizing acc with
  | nil => simp [snapshots]
  | cons c cs ih =>
    by_cases h : c.content = ""
    · simpa [snapshots, h] using ih acc
    · rw [snapshots, if_neg h, List.chain'_cons]
      exact ⟨⟨c.content, h, rfl⟩, ih (acc ++ c.content)⟩

/-- C3: if the service credential is unset, then for every possible input
(any catalog, any analysis name, any parameter values, any service behaviour)
`perform_analysis` yields exactly one value, that value is the
configuration-error message (marked `### ⚠️ Error` and naming `XAI_API_KEY`),
and no request to the external service is attempted. -/
theorem C3_no_credential_single_yield (catalog : List AnalysisDict)
    (xai_api_key : Option String) (analysis_name : String)
    (stock sector capfocus risk_level : Option String)
    (stream : StreamOutcome) (tb : String)
    (h : pyTruthy xai_api_key = false) :
    (perform_analysis catalog xai_api_key analysis_name stock sector capfocus
        risk_level stream tb).yields = [configErrorMsg] ∧
    (perform_analysis catalog xai_api_key analysis_name stock sector capfocus
        risk_level stream tb).serviceCalled = false ∧
    ∃ rest, configErrorMsg = "### ⚠️ Error" ++ rest := by
  refine ⟨?_, ?_, "\n\x60XAI_API_KEY\x60 not found in environment variables.", by decide⟩ <;>
    simp [perform_analysis, h]

theorem C3_no_credential_single_yield_witness :
    (perform_analysis FinalStream.ANALYSES none "Real-Time stock sentiment"
        (some "tsla") none none none ⟨[⟨"hello"⟩], none⟩ "").yields = [configErrorMsg] := by
  exact (C3_no_credential_single_yield FinalStream.ANALYSES none
    "Real-Time stock sentiment" (some "tsla") none none none ⟨[⟨"hello"⟩], none⟩ ""
    (by decide)).1

/-- C4: with the credential configured, an analysis name matching no catalog
entry makes `perform_analysis` yield exactly the single message
`"Invalid Selection."`, with no service call; the generator terminates
normally (its result is this value, not an exception). -/
theorem C4_unknown_selection_single_yield (catalog : List AnalysisDict)
    (xai_api_key : Option String) (analysis_name : String)
    (stock sector capfocus risk_level : Option String)
    (stream : StreamOutcome) (tb : String)
    (hk : pyTruthy xai_api_key = true)
    (hn : lookupAnalysis catalog analysis_name = none) :
    (perform_analysis catalog xai_api_key analysis_name stock sector capfocus
        risk_level stream tb).yields = ["Invalid Selection."] ∧
    (perform_analysis catalog xai_api_key analysis_name stock sector capfocus
        risk_level stream tb).serviceCalled = false := by
  constructor <;> simp [perform_analysis, hk, hn]

theorem C4_unknown_selection_single_yield_witness :
    (perform_analysis FinalStream.ANALYSES (some "key") "Nonexistent"
        none none none none ⟨[⟨"hello"⟩], none⟩ "").yields = ["Invalid Selection."] ∧
    (perform_analysis FinalStream.ANALYSES (some "key") "Nonexistent"
        none none none none ⟨[⟨"hello"⟩], none⟩ "").serviceCalled = false := by
  exact C4_unknown_selection_single_yield FinalStream.ANALYSES (some "key")
    "Nonexistent" none none none none ⟨[⟨"hello"⟩], none⟩ "" (by decide) (by decide)

/-- C1: on a successful run (credential configured, known analysis name, the
template renders, the stream completes without exception) the sequence of
yielded strings is prefix-monotonic: each subsequent yield equals the previous
one with a non-empty suffix appended. -/
theorem C1_yields_prefix_monotonic (catalog : List AnalysisDict)
    (xai_api_key : Option String) (analysis_name : String)
    (stock sector capfocus risk_level : Option String)
    (chunks : List Chunk) (tb : String) (d : AnalysisDict) (p : String)
    (hk : pyTruthy xai_api_key = true)
    (hd : lookupAnalysis catalog analysis_name = some d)
    (hp : renderTemplate (format_params stock sector capfocus risk_level)
        d.prompt_template = .ok p) :
    List.Chain' growsBy (perform_analysis catalog xai_api_key analysis_name
        stock sector capfocus risk_level ⟨chunks, none⟩ tb).yields := by
  have hy : (perform_analysis catalog xai_api_key analysis_name stock sector
      capfocus risk_level ⟨chunks, none⟩ tb).yields = snapshots "" chunks := by
    simp [perform_analysis, hk, hd, hp]
  rw [hy]
  exact (snapshots_chain chunks "").tail

theorem C1_yields_prefix_monotonic_witness :
    List.Chain' growsBy (perform_analysis FinalStream.ANALYSES (some "key")
      "Real-Time stock sentiment" (some "tsla") none none none
      ⟨[⟨"# T"⟩, ⟨""⟩, ⟨"SLA"⟩], none⟩ "").yields := by
  exact C1_yields_prefix_monotonic FinalStream.ANALYSES (some "key")
    "Real-Time stock sentiment" (some "tsla") none none none
    [⟨"# T"⟩, ⟨""⟩, ⟨"SLA"⟩] "" (FinalStream.ANALYSES.get ⟨0, by decide⟩)
    "Search X (Twitter) for the latest discussions about TSLA and analyze the sentiment. Focus on actionable insights, not noise."
    (by decide) (by decide) (by decide)

/-- C2: the substitution map is built with all four fixed keys for every
input, independent of the selected definition's recognized params: a missing
or empty `stock` maps to `"N/A"`, a present `stock` is upper-cased, a missing
`sector`/`capfocus` maps to `"unspecified"`, a missing `risk` maps to
`"medium"`; and in the scenario (selection `"Real-Time stock sentiment"`,
stock `"tsla"`, others unset) the map is
`{stock="TSLA", sector="unspecified", capfocus="unspecified", risk="medium"}`
and the rendered prompt contains the substring `"TSLA"`. -/
theorem C2_format_params_policy :
    (∀ se ca ri, (format_params none se ca ri).stock = "N/A" ∧
      (format_params (some "") se ca ri).stock = "N/A") ∧
    (∀ s se ca ri, s ≠ "" → (format_params (some s) se ca ri).stock = pyUpper s) ∧
    (∀ st ca ri, (format_params st none ca ri).sector = "unspecified" ∧
      (format_params st (some "") ca ri).sector = "unspecified") ∧
    (∀ st se ri, (format_params st se none ri).capfocus = "unspecified" ∧
      (format_params st se (some "") ri).capfocus = "unspecified") ∧
    (∀ st se ca, (format_params st se ca none).risk = "medium" ∧
      (format_params st se ca (some "")).risk = "medium") ∧
    format_params (some "tsla") none none none =
      { stock := "TSLA", sector := "unspecified", capfocus := "unspecified",
        risk := "medium" } ∧
    (∃ pre post,
      (lookupAnalysis FinalStream.ANALYSES "Real-Time stock sentiment").map
          (fun d => renderTemplate (format_params (some "tsla") none none none)
            d.prompt_template) =
        some (.ok (pre ++ "TSLA" ++ post))) := by
  refine ⟨fun se ca ri => ⟨rfl, rfl⟩, fun s se ca ri hs => ?_,
    fun st ca ri => ⟨rfl, rfl⟩, fun st se ri => ⟨rfl, rfl⟩,
    fun st se ca => ⟨rfl, rfl⟩, by decide,
    "Search X (Twitter) for the latest discussions about ",
    " and analyze the sentiment. Focus on actionable insights, not noise.",
    by decide⟩
  simp [format_params, pyTruthy, hs]

theorem C2_format_params_policy_witness :
    (format_params (some "tsla") none none none).stock = pyUpper "tsla" := by
  exact C2_format_params_policy.2.1 "tsla" none none none (by decide)

/-- C5: with the credential configured and the selection resolved, any failure
inside the `try` block surfaces as exactly one final yielded message (the
`### ❌ Error` label followed by the exception detail), the sequence ends, and
the snapshots yielded before the failure are exactly the yields of a run whose
stream had delivered the same fragments and completed. -/
theorem C5_failure_single_terminal_message (catalog : List AnalysisDict)
    (xai_api_key : Option String) (analysis_name : String)
    (stock sector capfocus risk_level : Option String)
    (stream : StreamOutcome) (tb : String) (d : AnalysisDict)
    (hk : pyTruthy xai_api_key = true)
    (hd : lookupAnalysis catalog analysis_name = some d) :
    (∀ e, renderTemplate (format_params stock sector capfocus risk_level)
        d.prompt_template = .error e →
      (perform_analysis catalog xai_api_key analysis_name stock sector capfocus
          risk_level stream tb).yields = [errorYield (strOfFormatError e) tb]) ∧
    (∀ p estr etb,
      renderTemplate (format_params stock sector capfocus risk_level)
        d.prompt_template = .ok p →
      stream.exn = some (estr, etb) →
      (perform_analysis catalog xai_api_key analysis_name stock sector capfocus
          risk_level stream tb).yields =
        snapshots "" stream.chunks ++ [errorYield estr etb] ∧
      (perform_analysis catalog xai_api_key analysis_name stock sector capfocus
          risk_level ⟨stream.chunks, none⟩ tb).yields = snapshots "" stream.chunks) ∧
    (∀ estr etb, ∃ rest, errorYield estr etb = "### ❌ Error\n" ++ rest) ∧
    (∀ estr etb, ∃ pre post, errorYield estr etb = pre ++ estr ++ post) := by
  refine ⟨fun e he => ?_, fun p estr etb hp hexn => ⟨?_, ?_⟩,
    fun estr etb => ⟨estr ++ "\n\n\x60\x60\x60\n" ++ etb ++ "\n\x60\x60\x60", ?_⟩,
    fun estr etb => ⟨"### ❌ Error\n", "\n\n\x60\x60\x60\n" ++ etb ++ "\n\x60\x60\x60", ?_⟩⟩
  · simp [perform_analysis, hk, hd, he]
  · simp [perform_analysis, hk, hd, hp, hexn]
  · simp [perform_analysis, hk, hd, hp]
  · simp [errorYield, String.append_assoc]
  · simp [errorYield, String.append_assoc]

theorem C5_failure_single_terminal_message_witness :
    (perform_analysis FinalStream.ANALYSES (some "key")
        "Real-Time stock sentiment" (some "tsla") none none none
        ⟨[⟨"Hi"⟩], some ("boom", "TB")⟩ "").yields =
      snapshots "" [⟨"Hi"⟩] ++ [errorYield "boom" "TB"] ∧
    (perform_analysis FinalStream.ANALYSES (some "key")
        "Real-Time stock sentiment" (some "tsla") none none none
        ⟨[⟨"Hi"⟩], none⟩ "").yields = snapshots "" [⟨"Hi"⟩] := by
  exact (C5_failure_single_terminal_message FinalStream.ANALYSES (some "key")
      "Real-Time stock sentiment" (some "tsla") none none none
      ⟨[⟨"Hi"⟩], some ("boom", "TB")⟩ "" (FinalStream.ANALYSES.get ⟨0, by decide⟩)
      (by decide) (by decide)).2.1
    "Search X (Twitter) for the latest discussions about TSLA and analyze the sentiment. Focus on actionable insights, not noise."
    "boom" "TB" (by decide) rfl

theorem formatMapGet_empty (m : FormatParams) : formatMapGet m "" = none := rfl

theorem formatMapGet_isSome_of_mem_four (m : FormatParams) (k : String)
    (hk : k ∈ (["stock", "sector", "capfocus", "risk"] : List String)) :
    (formatMapGet m k).isSome = true := by
  simp only [List.mem_cons, List.not_mem_nil, or_false] at hk
  rcases hk with rfl | rfl | rfl | rfl <;> rfl

theorem renderGo_no_missingKey (m : FormatParams) (l : List Char) :
    ∀ mode, (∀ k ∈ fieldsGo mode l, (formatMapGet m k).isSome = true) →
    ∀ k, renderGo m mode l ≠ .error (.missingKey k) := by
  induction l with
  | nil =>
    intro mode _ k
    cases mode <;> simp [renderGo]
  | cons c cs ih =>
    intro mode h k
    cases mode with
    | normal =>
      by_cases h1 : c = lbrace
      · simp only [renderGo, fieldsGo, if_pos h1] at h ⊢
        exact ih _ h k
      · by_cases h2 : c = rbrace
        · simp only [renderGo, fieldsGo, if_neg h1, if_pos h2] at h ⊢
          exact ih _ h k
        · simp only [renderGo, fieldsGo, if_neg h1, if_neg h2] at h ⊢
          intro hcontra
          exact ih _ h k ((exceptMap_eq_error _ _ _).mp hcontra)
    | afterLbrace =>
      by_cases h1 : c = lbrace
      · simp only [renderGo, fieldsGo, if_pos h1] at h ⊢
        intro hcontra
        exact ih _ h k ((exceptMap_eq_error _ _ _).mp hcontra)
      · by_cases h2 : c = rbrace
        · simp only [fieldsGo, if_neg h1, if_pos h2] at h
          have h0 := h "" (List.mem_cons_self _ _)
          rw [formatMapGet_empty] at h0
          simp at h0
        · simp only [renderGo, fieldsGo, if_neg h1, if_neg h2] at h ⊢
          exact ih _ h k
    | field acc =>
      by_cases h2 : c = rbrace
      · simp only [fieldsGo, if_pos h2] at h
        have h0 := h (String.mk acc.reverse) (List.mem_cons_self _ _)
        obtain ⟨v, hv⟩ := Option.isSome_iff_exists.mp h0
        simp only [renderGo, if_pos h2, hv]
        intro hcontra
        refine ih _ (fun k' hk' => h k' (List.mem_cons_of_mem _ hk')) k ?_
        exact (exceptMap_eq_error _ _ _).mp hcontra
      · simp only [renderGo, fieldsGo, if_neg h2] at h ⊢
        exact ih _ h k
    | afterRbrace =>
      by_cases h2 : c = rbrace
      · simp only [renderGo, fieldsGo, if_pos h2] at h ⊢
        intro hcontra
        exact ih _ h k ((exceptMap_eq_error _ _ _).mp hcontra)
      · simp [renderGo, if_neg h2]

theorem catalog_render_no_missingKey (catalog : List AnalysisDict)
    (hfields : ∀ d ∈ catalog, ∀ k ∈ templateFields d.prompt_template,
      k ∈ (["stock", "sector", "capfocus", "risk"] : List String)) :
    ∀ d ∈ catalog, ∀ (m : FormatParams) (k : String),
      renderTemplate m d.prompt_template ≠ .error (.missingKey k) := by
  intro d hd m k hcontra
  have herr := (exceptMap_eq_error _ _ _).mp hcontra
  exact renderGo_no_missingKey m d.prompt_template.data RMode.normal
    (fun k' hk' => formatMapGet_isSome_of_mem_four m k' (hfields d hd k' hk')) k herr

/-- C6: for every analysis definition in the two catalogs named by the claim,
every placeholder referenced by its template is one of the four fixed keys
(`stock`, `sector`, `capfocus`, `risk`), and hence rendering the template with
a substitution map containing all four fixed keys never raises a missing-key
error, whatever the map's values are. -/
theorem C6_render_never_missing_key :
    (∀ d ∈ FinalStream.ANALYSES, ∀ k ∈ templateFields d.prompt_template,
      k ∈ (["stock", "sector", "capfocus", "risk"] : List String)) ∧
    (∀ d ∈ MarketResearch.ANALYSES, ∀ k ∈ templateFields d.prompt_template,
      k ∈ (["stock", "sector", "capfocus", "risk"] : List String)) ∧
    (∀ d ∈ FinalStream.ANALYSES, ∀ (m : FormatParams) (k : String),
      renderTemplate m d.prompt_template ≠ .error (.missingKey k)) ∧
    (∀ d ∈ MarketResearch.ANALYSES, ∀ (m : FormatParams) (k : String),
      renderTemplate m d.prompt_template ≠ .error (.missingKey k)) := by
  have h1 : ∀ d ∈ FinalStream.ANALYSES, ∀ k ∈ templateFields d.prompt_template,
      k ∈ (["stock", "sector", "capfocus", "risk"] : List String) := by decide
  have h2 : ∀ d ∈ MarketResearch.ANALYSES, ∀ k ∈ templateFields d.prompt_template,
      k ∈ (["stock", "sector", "capfocus", "risk"] : List String) := by decide
  exact ⟨h1, h2, catalog_render_no_missingKey _ h1, catalog_render_no_missingKey _ h2⟩

theorem C6_render_never_missing_key_witness :
    renderTemplate
        { stock := "TSLA", sector := "Tech", capfocus := "small-cap", risk := "low" }
        (FinalStream.ANALYSES.get ⟨0, by decide⟩).prompt_template ≠
      .error (.missingKey "stock") := by
  exact C6_render_never_missing_key.2.2.1 (FinalStream.ANALYSES.get ⟨0, by decide⟩)
    (by decide)
    { stock := "TSLA", sector := "Tech", capfocus := "small-cap", risk := "low" }
    "stock"

/-- C7 counterexample: the claim "each definition's params list is exactly the
placeholders of its template" is false: the `"Bear-to-Bull Flip Alert"` entry
of `stock_and_market_research.py` (index 5) lists `["sector", "risk"]` while
its template contains no placeholder at all. -/
theorem C7_params_placeholders_counterexample :
    ¬ (∀ d ∈ MarketResearch.ANALYSES, ∀ ps, d.params = some ps →
        ∀ p, (p ∈ ps ↔ p ∈ templateFields d.prompt_template)) := by
  intro hall
  have hd := hall (MarketResearch.ANALYSES.get ⟨5, by decide⟩) (by decide)
    ["sector", "risk"] (by decide) "sector"
  exact absurd (hd.mp (by decide)) (by decide)

/-- C7 amended: in `stock_and_market_research.py` every definition except
`"Bear-to-Bull Flip Alert"` and `"Crowded Trade Exit Signal"` (whose `params`
lists name `sector`/`risk` although their templates reference no placeholder),
and in `ResearchEngine/stock_and_market_research.py` every definition except
`"Bear-to-Bull Flip Alert"`, has a `params` list that is exactly the set of
placeholder names present in its template. -/
theorem C7_params_placeholders_amended :
    (∀ d ∈ MarketResearch.ANALYSES,
      d.name ≠ "Bear-to-Bull Flip Alert" → d.name ≠ "Crowded Trade Exit Signal" →
      (∀ p ∈ d.params.getD [], p ∈ templateFields d.prompt_template) ∧
      (∀ p ∈ templateFields d.prompt_template, p ∈ d.params.getD [])) ∧
    (∀ d ∈ ResearchEngine.ANALYSES, d.name ≠ "Bear-to-Bull Flip Alert" →
      (∀ p ∈ d.params.getD [], p ∈ templateFields d.prompt_template) ∧
      (∀ p ∈ templateFields d.prompt_template, p ∈ d.params.getD [])) := by
  constructor <;> decide

theorem C7_params_placeholders_amended_witness :
    "stock" ∈ templateFields
      (MarketResearch.ANALYSES.get ⟨0, by decide⟩).prompt_template := by
  exact (C7_params_placeholders_amended.1 (MarketResearch.ANALYSES.get ⟨0, by decide⟩)
    (by decide) (by decide) (by decide)).1 "stock" (by decide)

/-- C8 counterexample: `"Analyze current discussions on X about emerging
trends in sector"` is a catalog name in `stock_and_sector_research.py`, yet
`update_visibility` raises `KeyError` on it (its dict stores
`"required_params"`, not `"params"`), so the helper is not failure-free on
every catalog name. -/
theorem C8_update_visibility_counterexample :
    "Analyze current discussions on X about emerging trends in sector" ∈
      SectorResearch.ANALYSES.map AnalysisDict.name ∧
    update_visibility SectorResearch.ANALYSES
        "Analyze current discussions on X about emerging trends in sector" =
      .error "KeyError: \x27params\x27" := by
  constructor <;> decide

/-- C8 amended: for every catalog entry of `stock_and_sector_research.py`
whose dict has a `"params"` key, `update_visibility` returns the four booleans,
each true exactly when the slot name is in that `params` list; for the entries
storing `"required_params"` instead it raises `KeyError`. -/
theorem C8_update_visibility_amended :
    (∀ d ∈ SectorResearch.ANALYSES, d.params.isSome = true →
      update_visibility SectorResearch.ANALYSES d.name =
        .ok [(d.params.getD []).contains "stock", (d.params.getD []).contains "sector",
             (d.params.getD []).contains "capfocus", (d.params.getD []).contains "risk"]) ∧
    (∀ d ∈ SectorResearch.ANALYSES, d.params = none →
      update_visibility SectorResearch.ANALYSES d.name =
        .error "KeyError: \x27params\x27") ∧
    (∀ (ps : List String) (slot : String), ps.contains slot = true ↔ slot ∈ ps) := by
  refine ⟨by decide, by decide, fun ps slot => ?_⟩
  simp [List.contains, List.elem_iff]

theorem C8_update_visibility_amended_witness :
    update_visibility SectorResearch.ANALYSES "Real-Time stock sentiment" =
      .ok [true, false, false, false] := by
  have h := C8_update_visibility_amended.1
    (SectorResearch.ANALYSES.get ⟨0, by decide⟩) (by decide) (by decide)
  exact h.trans (by decide)

theorem except_bind_ok {ε α β : Type} (a : α) (f : α → Except ε β) :
    ((Except.ok a : Except ε α) >>= f) = f a := rfl

theorem except_bind_error {ε α β : Type} (e : ε) (f : α → Except ε β) :
    ((Except.error e : Except ε α) >>= f) = Except.error e := rfl

/-- C9: a JSON parse failure of the vision reply is not caught anywhere in the
classifier: it propagates out of `analyze_chart_with_openai` and hence out of
`process_image`, instead of being converted into a user-facing message. -/
theorem C9_parse_failure_propagates {Img : Type}
    (json_loads : String → Except String Json) (reply : String) (image : Img)
    (e : String) (h : json_loads reply = .error e) :
    analyze_chart_with_openai json_loads reply = .error e ∧
    process_image json_loads reply image = .error e := by
  refine ⟨h, ?_⟩
  rw [process_image, analyze_chart_with_openai, h, except_bind_error]

theorem C9_parse_failure_propagates_witness :
    process_image (fun _ => .error "Expecting value: line 1 column 1 (char 0)")
        "not json" () = .error "Expecting value: line 1 column 1 (char 0)" := by
  exact (C9_parse_failure_propagates
    (fun _ => .error "Expecting value: line 1 column 1 (char 0)")
    "not json" () "Expecting value: line 1 column 1 (char 0)" rfl).2

/-- C10: for a reply parsing to a JSON object, `process_image` degrades
gracefully on missing fields: a missing `"analysis"` key makes the returned
explanation the literal string `"No analysis returned."`; a missing
`"patterns"` key still produces an annotated image, with zero segments drawn;
and a pattern object without a `"trendlines"` key contributes zero segments. -/
theorem C10_missing_fields_graceful {Img : Type}
    (json_loads : String → Except String Json) (reply : String) (image : Img)
    (fields : List (String × Json))
    (hparse : json_loads reply = .ok (.obj fields)) :
    ((Json.obj fields).lookup? "analysis" = none →
      ∀ r, process_image json_loads reply image = .ok r →
        r.1 = .str "No analysis returned.") ∧
    ((Json.obj fields).lookup? "patterns" = none →
      ∃ expl, process_image json_loads reply image = .ok (expl, (image, []))) ∧
    (∀ pfields : List (String × Json),
      (Json.obj pfields).lookup? "trendlines" = none →
      patternSegments (.obj pfields) = .ok []) := by
  refine ⟨?_, ?_, ?_⟩
  · intro hna r hr
    have hfind : fields.find? (fun f => f.1 == "analysis") = none := by
      simpa [Json.lookup?] using hna
    rw [process_image, analyze_chart_with_openai, hparse, except_bind_ok] at hr
    cases hdraw : draw_annotations (Json.obj fields) with
    | error e =>
      rw [hdraw, except_bind_error] at hr
      exact absurd hr (by simp)
    | ok segs =>
      rw [hdraw, except_bind_ok] at hr
      have hget : pyDictGet (Json.obj fields) "analysis" (.str "No analysis returned.") =
          .ok (.str "No analysis returned.") := by
        simp [pyDictGet, hfind]
      rw [hget, except_bind_ok] at hr
      have : (Except.ok (Json.str "No analysis returned.", (image, segs)) :
          Except String (Json × (Img × List Segment))) = .ok r := hr
      cases this
      rfl
  · intro hnp
    have hdraw : draw_annotations (Json.obj fields) = .ok [] := by
      rw [draw_annotations, hnp]
    refine ⟨((fields.find? (fun f => f.1 == "analysis")).map (fun f => f.2)).getD
      (.str "No analysis returned."), ?_⟩
    rw [process_image, analyze_chart_with_openai, hparse, except_bind_ok, hdraw,
      except_bind_ok]
    rfl
  · intro pfields htl
    have hfind : pfields.find? (fun f => f.1 == "trendlines") = none := by
      simpa [Json.lookup?] using htl
    have hget : pyDictGet (Json.obj pfields) "trendlines" (.arr []) = .ok (.arr []) := by
      simp [pyDictGet, hfind]
    rw [patternSegments, hget, except_bind_ok]
    rfl

theorem C10_missing_fields_graceful_witness :
    process_image (fun _ => .ok (.obj [])) "\x7b\x7d" () =
      .ok (.str "No analysis returned.", ((), [])) := by
  have h := (C10_missing_fields_graceful (fun _ => .ok (.obj [])) "\x7b\x7d" ()
    [] rfl).2.1 rfl
  obtain ⟨expl, hexpl⟩ := h
  have hex : expl = .str "No analysis returned." := by
    have h1 := (C10_missing_fields_graceful (fun _ => .ok (.obj [])) "\x7b\x7d" ()
      [] rfl).1 rfl (expl, ((), [])) hexpl
    exact h1
  rw [hex] at hexpl
  exact hexpl
